import Mathlib

/-!
Verification development for the claude-client repository.

The TypeScript sources are shallowly embedded: each class becomes a state
structure plus pure transition functions, asynchronous process interaction
becomes an explicit event trace, and JavaScript truthiness and nullish
coalescing are modelled explicitly where the source relies on them.
-/

/-- JS nullish coalescing a ?? b on optional values. -/
def nullish {α : Type} (a b : Option α) : Option α :=
  match a with
  | some x => some x
  | none => b

/-- JS expression v || d for numbers: 0 is falsy, so it falls through to d. -/
def jsOrNat (v : Option Nat) (d : Nat) : Nat :=
  match v with
  | some n => if n = 0 then d else n
  | none => d

/-- JS expression v || d for strings: the empty string is falsy. -/
def jsOrStr (v : Option String) (d : String) : String :=
  match v with
  | some s => if s = "" then d else s
  | none => d

/-- ClaudeCommand from src/types/ClaudeTypes.ts: one execution request. -/
structure ClaudeCommand where
  command : String
  args : List String
  cwd : Option String
  env : List (String × String)
  timeout : Option Nat
deriving DecidableEq, Repr

/-- ClaudeResponse from src/types/ClaudeTypes.ts: outcome of one completed command. -/
structure ClaudeResponse where
  id : String
  output : String
  error : Option String
  exitCode : Int
  duration : Nat
  timestamp : Nat
deriving DecidableEq, Repr

/-- ClaudeStreamChunk from src/types/ClaudeTypes.ts: one unit of streamed output. -/
structure ClaudeStreamChunk where
  sessionId : String
  sequence : Nat
  data : String
  isComplete : Bool
  timestamp : Nat
deriving DecidableEq, Repr

/-- ClaudeExecutionOptions from src/types/ClaudeTypes.ts (context field omitted:
it is never read by the embedded code paths). -/
structure ClaudeExecutionOptions where
  stream : Option Bool
  sessionId : Option String
  timeout : Option Nat
deriving DecidableEq, Repr

/-- ClaudeSessionConfig from src/types/ClaudeTypes.ts. -/
structure ClaudeSessionConfig where
  id : String
  workingDirectory : Option String
  environment : List (String × String)
  timeout : Option Nat
  enableStreaming : Option Bool
  streamBufferSize : Option Nat
deriving DecidableEq, Repr

/-- Failure values returned by the embedded operations. The source uses plain
Error objects; the constructors record exactly the data each message carries.
Note that the timeout rejection in ClaudeProcessManager carries only the
configured number of milliseconds, none of the collected output. -/
inductive ExecError where
  | spawnError (msg : String)
  | timeoutError (ms : Nat)
  | processError (msg : String)
  | inactiveSession (id : String)
deriving DecidableEq, Repr

/-- One observable event of a spawned child process, with its time in
milliseconds since the spawn. A trace is the list of events in delivery
order; exited and errored events are terminal. -/
inductive ProcEvent where
  | stdout (time : Nat) (data : String)
  | stderr (time : Nat) (data : String)
  | exited (time : Nat) (code : Option Int)
  | errored (time : Nat) (msg : String)
deriving DecidableEq, Repr

namespace ClaudeProcessManager

/-- All stdout payloads of a trace, in delivery order. The stdout data
listener installed by execute and executeStream is never removed, so it
observes every stdout event of the trace, including events delivered after
a timeout has already rejected the result promise. -/
def stdoutChunks (trace : List ProcEvent) : List String :=
  trace.filterMap fun e =>
    match e with
    | .stdout _ d => some d
    | _ => none

/-- All stderr payloads of a trace, in delivery order. -/
def stderrChunks (trace : List ProcEvent) : List String :=
  trace.filterMap fun e =>
    match e with
    | .stderr _ d => some d
    | _ => none

/-- Stdout payloads delivered strictly after time t. -/
def stdoutAfter (t : Nat) (trace : List ProcEvent) : List String :=
  trace.filterMap fun e =>
    match e with
    | .stdout u d => if t < u then some d else none
    | _ => none

/-- Stdout payloads delivered no later than time t. -/
def stdoutUpTo (t : Nat) (trace : List ProcEvent) : List String :=
  trace.filterMap fun e =>
    match e with
    | .stdout u d => if u ≤ t then some d else none
    | _ => none

/-- First terminal event (exit or process error) of a trace, if any. -/
def terminalEvent (trace : List ProcEvent) : Option ProcEvent :=
  trace.find? fun e =>
    match e with
    | .exited _ _ => true
    | .errored _ _ => true
    | _ => false

/-- The guard if (command.timeout) in execute and executeStream: the timer is
armed only when the timeout field is present and nonzero (0 is falsy in JS). -/
def effectiveTimer (cmd : ClaudeCommand) : Option Nat :=
  match cmd.timeout with
  | some t => if t = 0 then none else some t
  | none => none

/-- How the result promise of execute and executeStream settles. -/
inductive Settle where
  | timedOut (ms : Nat)
  | exited (time : Nat) (code : Option Int)
  | errored (time : Nat) (msg : String)
deriving DecidableEq, Repr

/-- Race between the timeout timer and the terminal process event: the timer
callback (which sends SIGTERM and rejects) wins exactly when it fires strictly
before the terminal event; the promise settles once and later callbacks have
no effect on it. Returns none when the process never terminates and no timer
is armed. -/
def settleOf (cmd : ClaudeCommand) (trace : List ProcEvent) : Option Settle :=
  match terminalEvent trace with
  | some (.exited t code) =>
    match effectiveTimer cmd with
    | some ms => if ms < t then some (.timedOut ms) else some (.exited t code)
    | none => some (.exited t code)
  | some (.errored t msg) =>
    match effectiveTimer cmd with
    | some ms => if ms < t then some (.timedOut ms) else some (.errored t msg)
    | none => some (.errored t msg)
  | _ =>
    match effectiveTimer cmd with
    | some ms => some (.timedOut ms)
    | none => none

/-- Whether the timeout timer won the race, i.e. its callback sent SIGTERM and
rejected the promise. -/
def timeoutFired (cmd : ClaudeCommand) (trace : List ProcEvent) : Bool :=
  match settleOf cmd trace with
  | some (.timedOut _) => true
  | _ => false

/-- Signals sent by the timer callback: childProcess.kill with SIGTERM exactly
when the timeout fires before the process terminates. -/
def signalsSent (cmd : ClaudeCommand) (trace : List ProcEvent) : List String :=
  if timeoutFired cmd trace then ["SIGTERM"] else []

/-- The expression code || 0 applied to the nullable exit code: a null code
(process killed by a signal) and an exit code of 0 both yield 0. -/
def jsOrZero (code : Option Int) : Int :=
  match code with
  | some c => if c = 0 then 0 else c
  | none => 0

/-- Execute from ClaudeProcessManager: spawn, accumulate stdout and stderr,
and race process exit against the optional timeout timer. spawnFail models a
synchronous spawn throw (caught and returned as failure). On a timeout the
rejection value carries only the millisecond count, so the accumulated partial
output is dropped. Returns none when the call never settles. -/
def execute (cmd : ClaudeCommand) (spawnFail : Option String) (startTime : Nat)
    (trace : List ProcEvent) : Option (Except ExecError ClaudeResponse) :=
  match spawnFail with
  | some msg => some (Except.error (ExecError.spawnError msg))
  | none =>
    match settleOf cmd trace with
    | none => none
    | some (.timedOut ms) => some (Except.error (ExecError.timeoutError ms))
    | some (.errored _ msg) => some (Except.error (ExecError.processError msg))
    | some (.exited t code) =>
      let output := String.join (stdoutChunks trace)
      let errText := String.join (stderrChunks trace)
      some (Except.ok {
        id := "exec_" ++ toString startTime
        output := output
        error := if errText = "" then none else some errText
        exitCode := jsOrZero code
        duration := t
        timestamp := startTime + t })

/-- ExecuteStream from ClaudeProcessManager: same lifecycle as execute, but
every stdout payload is also forwarded to the onChunk callback as it arrives.
The first component is the full list of payloads handed to onChunk: the data
listener is registered once at spawn time and never removed, so it keeps
firing for payloads that arrive after the timeout has rejected the promise. -/
def executeStream (cmd : ClaudeCommand) (spawnFail : Option String) (startTime : Nat)
    (trace : List ProcEvent) : List String × Option (Except ExecError ClaudeResponse) :=
  match spawnFail with
  | some msg => ([], some (Except.error (ExecError.spawnError msg)))
  | none =>
    let delivered := stdoutChunks trace
    match settleOf cmd trace with
    | none => (delivered, none)
    | some (.timedOut ms) => (delivered, some (Except.error (ExecError.timeoutError ms)))
    | some (.errored _ msg) => (delivered, some (Except.error (ExecError.processError msg)))
    | some (.exited t code) =>
      let output := String.join delivered
      let errText := String.join (stderrChunks trace)
      (delivered, some (Except.ok {
        id := "stream_" ++ toString startTime
        output := output
        error := if errText = "" then none else some errText
        exitCode := jsOrZero code
        duration := t
        timestamp := startTime + t }))

end ClaudeProcessManager

/-- State of a ClaudeStreamProcessor from src/utils/ClaudeStreamProcessor.ts.
The listener counts model the EventEmitter registrations for the chunk,
complete and error event names (only the count matters for the embedded
behaviour: non error events with zero listeners are dropped silently, while
emitting the error event with zero listeners makes Node throw). -/
structure StreamState where
  sessionId : String
  buffer : List String
  chunkSequence : Nat
  isComplete : Bool
  startTime : Nat
  bufferSize : Nat
  chunkListeners : Nat
  completeListeners : Nat
  errorListeners : Nat
deriving DecidableEq, Repr

/-- Payload handed to each error subscriber by ClaudeStreamProcessor.error. -/
structure StreamErrorNotification where
  sessionId : String
  errMsg : String
  duration : Nat
  chunksProcessed : Nat
deriving DecidableEq, Repr

namespace ClaudeStreamProcessor

/-- Constructor of ClaudeStreamProcessor: fresh buffer, sequence 0, not
complete, start time recorded; the buffer size defaults to 1024 at the call
sites that omit it. -/
def create (sessionId : String) (now : Nat) (bufferSize : Nat)
    (chunkListeners completeListeners errorListeners : Nat) : StreamState :=
  { sessionId := sessionId
    buffer := []
    chunkSequence := 0
    isComplete := false
    startTime := now
    bufferSize := bufferSize
    chunkListeners := chunkListeners
    completeListeners := completeListeners
    errorListeners := errorListeners }

/-- ProcessChunk: build the chunk with the current sequence number and the
completion flag false, post increment the sequence, push the payload, emit the
chunk event (never throws: chunk is not the error event name), then drop the
oldest surplus entries in one splice when the buffer exceeds its size. -/
def processChunk (s : StreamState) (data : String) (now : Nat) :
    StreamState × ClaudeStreamChunk :=
  let chunk : ClaudeStreamChunk :=
    { sessionId := s.sessionId
      sequence := s.chunkSequence
      data := data
      isComplete := false
      timestamp := now }
  let buf := s.buffer ++ [data]
  let buf2 := if s.bufferSize < buf.length then buf.drop (buf.length - s.bufferSize) else buf
  ({ s with chunkSequence := s.chunkSequence + 1, buffer := buf2 }, chunk)

/-- Run processChunk over a list of (payload, timestamp) pairs in order,
collecting the returned chunks. -/
def processAll (s : StreamState) (items : List (String × Nat)) :
    StreamState × List ClaudeStreamChunk :=
  match items with
  | [] => (s, [])
  | (d, t) :: rest =>
    ((processAll (processChunk s d t).1 rest).1,
     (processChunk s d t).2 :: (processAll (processChunk s d t).1 rest).2)

/-- Complete: set the completion flag and return the terminal chunk, which
carries the current sequence number, an empty payload and the completion flag.
The complete event it emits is not the error event name, so emitting it never
throws. -/
def complete (s : StreamState) (now : Nat) : StreamState × ClaudeStreamChunk :=
  ({ s with isComplete := true },
   { sessionId := s.sessionId
     sequence := s.chunkSequence
     data := ""
     isComplete := true
     timestamp := now })

/-- Error handler of ClaudeStreamProcessor: set the completion flag, then emit
the error event carrying elapsed duration and the number of chunks processed.
Node EventEmitter semantics: emitting the error event with no registered error
listener throws (the payload here is not an Error instance, so Node raises
ERR_UNHANDLED_ERROR); with listeners registered, each receives the payload and
the call returns normally. The state mutation precedes the emit, so the stream
is marked complete even on the throwing path. -/
def error (s : StreamState) (errMsg : String) (now : Nat) :
    StreamState × Except String (List StreamErrorNotification) :=
  let s2 := { s with isComplete := true }
  let duration := now - s.startTime
  if s.errorListeners = 0 then
    (s2, Except.error "ERR_UNHANDLED_ERROR")
  else
    (s2, Except.ok (List.replicate s.errorListeners
      { sessionId := s.sessionId
        errMsg := errMsg
        duration := duration
        chunksProcessed := s.chunkSequence }))

/-- GetBufferedData: concatenation of the buffered payloads in arrival order. -/
def getBufferedData (s : StreamState) : String :=
  String.join s.buffer

end ClaudeStreamProcessor

/-- State of a ClaudeSession from src/implementations/ClaudeSession.ts. -/
structure SessionState where
  id : String
  config : ClaudeSessionConfig
  isActive : Bool
  createdAt : Nat
  lastActivity : Nat
  executionCount : Nat
  totalDuration : Nat
  lastExecutionTime : Option Nat
deriving DecidableEq, Repr

namespace ClaudeSession

/-- Constructor of ClaudeSession: active, zeroed counters, no execution yet. -/
def create (config : ClaudeSessionConfig) (now : Nat) : SessionState :=
  { id := config.id
    config := config
    isActive := true
    createdAt := now
    lastActivity := now
    executionCount := 0
    totalDuration := 0
    lastExecutionTime := none }

/-- JS object spread of the session environment under the command overrides:
as a finite map, command entries win on common keys and order follows the
spread. -/
def envMerge (base overrides : List (String × String)) : List (String × String) :=
  base.filter (fun p => ¬ (overrides.map Prod.fst).contains p.1) ++ overrides

/-- The spread fragment (v && field) over a spread of the command: a truthy
value overrides the command field, while undefined or 0 leaves the command
field as the spread of the command left it. -/
def applyTruthyNat (v fallback : Option Nat) : Option Nat :=
  match v with
  | some n => if n = 0 then fallback else some n
  | none => fallback

/-- The spread fragment (v && field) for a string value: the empty string is
falsy and leaves the command field in place. -/
def applyTruthyStr (v fallback : Option String) : Option String :=
  match v with
  | some s => if s = "" then fallback else some s
  | none => fallback

/-- Command merging done by ClaudeSession.execute and executeStream: cwd is
command.cwd ?? config.workingDirectory, timeout is options?.timeout ??
command.timeout ?? config.timeout, and each is spliced over the spread of the
command through a truthiness guard; the environment is the object spread of
the session environment under the command environment. The result is the
command handed to the process manager. -/
def mergeCommand (cfg : ClaudeSessionConfig) (command : ClaudeCommand)
    (options : Option ClaudeExecutionOptions) : ClaudeCommand :=
  let cwd := nullish command.cwd cfg.workingDirectory
  let timeout := nullish (options.bind (fun o => o.timeout))
    (nullish command.timeout cfg.timeout)
  { command with
    cwd := applyTruthyStr cwd command.cwd
    env := envMerge cfg.environment command.env
    timeout := applyTruthyNat timeout command.timeout }

/-- Execute from ClaudeSession: reject immediately when inactive (no state
change), otherwise refresh the activity timestamp, delegate the merged command
to the process manager (its result is the pmResult argument, success or
failure), then increment the execution count, add the measured duration and
record the execution time — these updates happen on both branches of the
result. The delegate result is returned unchanged. The middle component of
the result is the merged command handed to the process manager (none when the
call is rejected as inactive and nothing is handed over). -/
def execute (s : SessionState) (command : ClaudeCommand)
    (options : Option ClaudeExecutionOptions) (now duration : Nat)
    (pmResult : Except ExecError ClaudeResponse) :
    SessionState × Option ClaudeCommand × Except ExecError ClaudeResponse :=
  if s.isActive = false then
    (s, none, Except.error (ExecError.inactiveSession s.id))
  else
    let s2 := { s with lastActivity := now }
    let merged := mergeCommand s.config command options
    ({ s2 with
        executionCount := s2.executionCount + 1
        totalDuration := s2.totalDuration + duration
        lastExecutionTime := some (now + duration) },
     some merged,
     pmResult)

/-- ExecuteStream from ClaudeSession: identical bookkeeping to execute, the
delegate being executeStream of the process manager. -/
def executeStream (s : SessionState) (command : ClaudeCommand)
    (options : Option ClaudeExecutionOptions) (now duration : Nat)
    (pmResult : Except ExecError ClaudeResponse) :
    SessionState × Option ClaudeCommand × Except ExecError ClaudeResponse :=
  execute s command options now duration pmResult

/-- Destroy: idempotent, clears the active flag and nothing else. -/
def destroy (s : SessionState) : SessionState :=
  { s with isActive := false }

/-- GetStats from ClaudeSession. -/
def getStats (s : SessionState) : Nat × Nat × Nat × Option Nat :=
  (s.executionCount, s.totalDuration,
   if 0 < s.executionCount then s.totalDuration / s.executionCount else 0,
   s.lastExecutionTime)

end ClaudeSession

/-- One call made against a session while it may or may not still be active. -/
inductive SessionCall where
  | exec (command : ClaudeCommand) (options : Option ClaudeExecutionOptions)
      (now duration : Nat) (pmResult : Except ExecError ClaudeResponse)
  | execStream (command : ClaudeCommand) (options : Option ClaudeExecutionOptions)
      (now duration : Nat) (pmResult : Except ExecError ClaudeResponse)
  | destroy

namespace ClaudeSession

/-- State transition of one session call. -/
def step (s : SessionState) (c : SessionCall) : SessionState :=
  match c with
  | .exec cmd opts now dur r => (execute s cmd opts now dur r).1
  | .execStream cmd opts now dur r => (executeStream s cmd opts now dur r).1
  | .destroy => destroy s

/-- Run a list of session calls in order. -/
def run (s : SessionState) (cs : List SessionCall) : SessionState :=
  cs.foldl step s

/-- Number of calls in the list that the session actually routes: execute and
executeStream calls arriving while the session is active at that moment. -/
def routedCount (s : SessionState) (cs : List SessionCall) : Nat :=
  match cs with
  | [] => 0
  | c :: rest =>
    (match c with
     | .exec _ _ _ _ _ => if s.isActive then 1 else 0
     | .execStream _ _ _ _ _ => if s.isActive then 1 else 0
     | .destroy => 0) + routedCount (step s c) rest

/-- Total duration added by the routed calls of the list. -/
def routedDuration (s : SessionState) (cs : List SessionCall) : Nat :=
  match cs with
  | [] => 0
  | c :: rest =>
    (match c with
     | .exec _ _ _ dur _ => if s.isActive then dur else 0
     | .execStream _ _ _ dur _ => if s.isActive then dur else 0
     | .destroy => 0) + routedDuration (step s c) rest

end ClaudeSession

/-- ClaudeClientConfig from src/utils/ClaudeTokens.ts. -/
structure ClaudeClientConfig where
  defaultTimeout : Nat
  maxConcurrentSessions : Nat
  defaultWorkingDirectory : String
  enableStreamingByDefault : Bool
  streamBufferSize : Nat
  sessionCleanupInterval : Nat
  maxSessionIdleTime : Nat
deriving DecidableEq, Repr

/-- Failure values of the client operations, mirroring the Error messages the
source builds. -/
inductive ClientError where
  | capacityError (maxSessions : Nat)
  | duplicateSession (id : String)
  | sessionNotFound (id : String)
deriving DecidableEq, Repr

/-- State of a ClaudeClient from src/implementations/ClaudeClient.ts: the
session registry is a JS Map, embedded as an insertion ordered association
list (Map.set on a fresh key appends, Map.set on a present key updates in
place, Map.delete removes). -/
structure ClientState where
  sessions : List (String × SessionState)
  config : ClaudeClientConfig
deriving DecidableEq, Repr

namespace ClaudeClient

/-- Registered session identifiers in insertion order (Map keys). -/
def sessionKeys (st : ClientState) : List String :=
  st.sessions.map Prod.fst

/-- Initial client state: empty registry. -/
def init (config : ClaudeClientConfig) : ClientState :=
  { sessions := [], config := config }

/-- Defaults filled into a session configuration by createSession: working
directory, timeout and buffer size fall back through JS truthiness (||), the
streaming flag through nullish coalescing (??). -/
def fillSessionDefaults (c : ClaudeClientConfig) (cfg : ClaudeSessionConfig) :
    ClaudeSessionConfig :=
  { cfg with
    workingDirectory := some (jsOrStr cfg.workingDirectory c.defaultWorkingDirectory)
    timeout := some (jsOrNat cfg.timeout c.defaultTimeout)
    enableStreaming := some ((nullish cfg.enableStreaming
      (some c.enableStreamingByDefault)).getD c.enableStreamingByDefault)
    streamBufferSize := some (jsOrNat cfg.streamBufferSize c.streamBufferSize) }

/-- CreateSession: the capacity ceiling is checked first (sessions.size >=
maxConcurrentSessions fails with the limit error), then the duplicate
identifier check, then the session is built with defaults filled in and
registered under its identifier. -/
def createSession (st : ClientState) (cfg : ClaudeSessionConfig) (now : Nat) :
    ClientState × Except ClientError String :=
  if st.config.maxConcurrentSessions ≤ st.sessions.length then
    (st, Except.error (ClientError.capacityError st.config.maxConcurrentSessions))
  else if cfg.id ∈ sessionKeys st then
    (st, Except.error (ClientError.duplicateSession cfg.id))
  else
    let sc := fillSessionDefaults st.config cfg
    ({ st with sessions := st.sessions ++ [(cfg.id, ClaudeSession.create sc now)] },
     Except.ok cfg.id)

/-- DestroySession: unknown identifiers fail with the not found error;
otherwise the session destroy (which always succeeds: it only clears the
active flag) runs and the entry is removed from the registry. -/
def destroySession (st : ClientState) (id : String) :
    ClientState × Except ClientError Unit :=
  if id ∈ sessionKeys st then
    ({ st with sessions := st.sessions.filter (fun p => p.1 ≠ id) }, Except.ok ())
  else
    (st, Except.error (ClientError.sessionNotFound id))

/-- Execute with options.sessionId set: look the session up (not found fails)
and delegate to it, updating the stored session state in place. -/
def executeRouted (st : ClientState) (sessionId : String) (command : ClaudeCommand)
    (options : Option ClaudeExecutionOptions) (now duration : Nat)
    (pmResult : Except ExecError ClaudeResponse) :
    ClientState × Except ExecError ClaudeResponse :=
  match st.sessions.find? (fun p => p.1 = sessionId) with
  | none => (st, Except.error (ExecError.processError ("Session " ++ sessionId ++ " not found")))
  | some p =>
    let r := ClaudeSession.execute p.2 command options now duration pmResult
    let updated := st.sessions.map (fun q => if q.1 = sessionId then (q.1, r.1) else q)
    ({ st with sessions := updated }, r.2.2)

/-- CleanupInactiveSessions: collect the identifiers whose session is inactive
or idle beyond the threshold, then destroy each in turn. -/
def cleanupInactiveSessions (st : ClientState) (now : Nat) : ClientState :=
  let ids := st.sessions.filterMap fun p =>
    if p.2.isActive = false ∨ st.config.maxSessionIdleTime < now - p.2.lastActivity
    then some p.1 else none
  ids.foldl (fun acc id => (destroySession acc id).1) st

/-- GetActiveSessions: identifiers of registered sessions whose active flag is
set. -/
def getActiveSessions (st : ClientState) : List String :=
  (st.sessions.filter (fun p => p.2.isActive)).map Prod.fst

end ClaudeClient

/-- One operation against the client, the process manager outcome supplied as
an oracle where an execution is routed. -/
inductive ClientOp where
  | create (cfg : ClaudeSessionConfig) (now : Nat)
  | destroy (id : String)
  | execRouted (sessionId : String) (command : ClaudeCommand)
      (options : Option ClaudeExecutionOptions) (now duration : Nat)
      (pmResult : Except ExecError ClaudeResponse)
  | cleanupIdle (now : Nat)

namespace ClaudeClient

/-- State transition of one client operation. -/
def step (st : ClientState) (op : ClientOp) : ClientState :=
  match op with
  | .create cfg now => (createSession st cfg now).1
  | .destroy id => (destroySession st id).1
  | .execRouted sid cmd opts now dur r => (executeRouted st sid cmd opts now dur r).1
  | .cleanupIdle now => cleanupInactiveSessions st now

/-- Run a list of client operations from the initial state. -/
def run (config : ClaudeClientConfig) (ops : List ClientOp) : ClientState :=
  ops.foldl step (init config)

end ClaudeClient

example :
    ClaudeProcessManager.execute
      { command := "claude", args := [], cwd := none, env := [], timeout := some 5 }
      none 100
      [ProcEvent.stdout 1 "a", ProcEvent.exited 9 (some 0)]
    = some (Except.error (ExecError.timeoutError 5)) := rfl

example :
    ClaudeProcessManager.execute
      { command := "claude", args := [], cwd := none, env := [], timeout := none }
      none 100
      [ProcEvent.stdout 1 "a", ProcEvent.stderr 2 "w", ProcEvent.exited 9 (some 3)]
    = some (Except.ok
        { id := "exec_100"
          output := "a"
          error := some "w"
          exitCode := 3
          duration := 9
          timestamp := 109 }) := rfl

instance {ε α : Type} [DecidableEq ε] [DecidableEq α] : DecidableEq (Except ε α)
  | .error a, .error b =>
    if h : a = b then .isTrue (by rw [h]) else .isFalse (by intro hc; injection hc; exact h (by assumption))
  | .error _, .ok _ => .isFalse (by intro hc; exact Except.noConfusion hc)
  | .ok _, .error _ => .isFalse (by intro hc; exact Except.noConfusion hc)
  | .ok a, .ok b =>
    if h : a = b then .isTrue (by rw [h]) else .isFalse (by intro hc; injection hc; exact h (by assumption))

/-- Whether a modelled call raised instead of returning. -/
def throwsResult {ε α : Type} (r : Except ε α) : Bool :=
  match r with
  | .error _ => true
  | .ok _ => false

/-- Modelled from the spec: the effective timeout precedence the specification
states for session execution — explicit option over explicit command field
over session default, each taken whenever present. Compared against the
timeout the source actually hands to the process manager. -/
def specEffectiveTimeout (optTimeout cmdTimeout sessTimeout : Option Nat) : Option Nat :=
  nullish optTimeout (nullish cmdTimeout sessTimeout)

/-- C1 (amended): once the timeout wins the race in a streaming execution, the
call settles as a TimeoutError failure — never a success carrying the partial
output — but the stdout listener stays attached, so onChunk still receives
every stdout payload of the trace, including payloads arriving after the
termination signal. -/
theorem claim_C1_stream_timeout_failure_but_chunks_still_delivered
    (cmd : ClaudeCommand) (startTime : Nat) (trace : List ProcEvent) (ms : Nat)
    (hSettle : ClaudeProcessManager.settleOf cmd trace
      = some (ClaudeProcessManager.Settle.timedOut ms)) :
    (ClaudeProcessManager.executeStream cmd none startTime trace).2
      = some (Except.error (ExecError.timeoutError ms))
    ∧ (ClaudeProcessManager.executeStream cmd none startTime trace).1
      = ClaudeProcessManager.stdoutChunks trace := by
  constructor
  · simp [ClaudeProcessManager.executeStream, hSettle]
  · simp [ClaudeProcessManager.executeStream, hSettle]

/-- C1 witness: a concrete stream execution whose 5 ms timeout fires before
the exit at 9 ms settles as a failure while both stdout payloads reach the
callback. -/
theorem claim_C1_witness :
    (ClaudeProcessManager.executeStream
      { command := "claude", args := [], cwd := none, env := [], timeout := some 5 }
      none 0
      [ProcEvent.stdout 1 "a", ProcEvent.stdout 7 "b", ProcEvent.exited 9 (some 0)]).2
      = some (Except.error (ExecError.timeoutError 5))
    ∧ (ClaudeProcessManager.executeStream
      { command := "claude", args := [], cwd := none, env := [], timeout := some 5 }
      none 0
      [ProcEvent.stdout 1 "a", ProcEvent.stdout 7 "b", ProcEvent.exited 9 (some 0)]).1
      = ClaudeProcessManager.stdoutChunks
        [ProcEvent.stdout 1 "a", ProcEvent.stdout 7 "b", ProcEvent.exited 9 (some 0)] :=
  claim_C1_stream_timeout_failure_but_chunks_still_delivered
    { command := "claude", args := [], cwd := none, env := [], timeout := some 5 }
    0
    [ProcEvent.stdout 1 "a", ProcEvent.stdout 7 "b", ProcEvent.exited 9 (some 0)]
    5 (by decide)

/-- C1 counterexample: under a 5 ms timeout, a payload arriving at 7 ms — after
the timeout fired and SIGTERM was sent — is still handed to onChunk, so the
delivered list is not limited to the payloads that arrived by the timeout. -/
theorem claim_C1_counterexample :
    ClaudeProcessManager.timeoutFired
      { command := "claude", args := [], cwd := none, env := [], timeout := some 5 }
      [ProcEvent.stdout 1 "a", ProcEvent.stdout 7 "b", ProcEvent.exited 9 (some 0)] = true
    ∧ (ClaudeProcessManager.executeStream
      { command := "claude", args := [], cwd := none, env := [], timeout := some 5 }
      none 0
      [ProcEvent.stdout 1 "a", ProcEvent.stdout 7 "b", ProcEvent.exited 9 (some 0)]).1
      ≠ ClaudeProcessManager.stdoutUpTo 5
        [ProcEvent.stdout 1 "a", ProcEvent.stdout 7 "b", ProcEvent.exited 9 (some 0)]
    ∧ ClaudeProcessManager.stdoutAfter 5
        [ProcEvent.stdout 1 "a", ProcEvent.stdout 7 "b", ProcEvent.exited 9 (some 0)] = ["b"] := by
  refine ⟨by decide, by decide, by decide⟩

/-- C2: when the configured timeout elapses before the process exits, the
timer callback sends SIGTERM and execute settles as a TimeoutError failure
whose value carries only the millisecond count — none of the stdout or stderr
collected so far. -/
theorem claim_C2_execute_timeout_discards_partial_output
    (cmd : ClaudeCommand) (startTime : Nat) (trace : List ProcEvent)
    (ms t : Nat) (code : Option Int)
    (hTimer : ClaudeProcessManager.effectiveTimer cmd = some ms)
    (hTerm : ClaudeProcessManager.terminalEvent trace = some (ProcEvent.exited t code))
    (hRace : ms < t) :
    ClaudeProcessManager.execute cmd none startTime trace
      = some (Except.error (ExecError.timeoutError ms))
    ∧ ClaudeProcessManager.signalsSent cmd trace = ["SIGTERM"] := by
  constructor
  · simp [ClaudeProcessManager.execute, ClaudeProcessManager.settleOf, hTerm, hTimer, hRace]
  · simp [ClaudeProcessManager.signalsSent, ClaudeProcessManager.timeoutFired,
      ClaudeProcessManager.settleOf, hTerm, hTimer, hRace]

/-- C2 witness: a 5 ms timeout against an exit at 9 ms with partial output on
both channels yields the SIGTERM signal and the bare timeout failure. -/
theorem claim_C2_witness :
    ClaudeProcessManager.execute
      { command := "claude", args := [], cwd := none, env := [], timeout := some 5 }
      none 0
      [ProcEvent.stdout 1 "partial", ProcEvent.stderr 2 "warn", ProcEvent.exited 9 (some 0)]
      = some (Except.error (ExecError.timeoutError 5))
    ∧ ClaudeProcessManager.signalsSent
      { command := "claude", args := [], cwd := none, env := [], timeout := some 5 }
      [ProcEvent.stdout 1 "partial", ProcEvent.stderr 2 "warn", ProcEvent.exited 9 (some 0)]
      = ["SIGTERM"] :=
  claim_C2_execute_timeout_discards_partial_output
    { command := "claude", args := [], cwd := none, env := [], timeout := some 5 }
    0
    [ProcEvent.stdout 1 "partial", ProcEvent.stderr 2 "warn", ProcEvent.exited 9 (some 0)]
    5 9 (some 0) (by decide) (by decide) (by decide)

/-- C6: a process that exits on its own with a non-zero code — no spawn
failure and no timeout win — yields a successful response carrying that exit
code, the accumulated output and the accumulated stderr text, the latter
absent exactly when stderr stayed empty. -/
theorem claim_C6_nonzero_exit_is_success
    (cmd : ClaudeCommand) (startTime : Nat) (trace : List ProcEvent)
    (t : Nat) (c : Int)
    (hTerm : ClaudeProcessManager.terminalEvent trace = some (ProcEvent.exited t (some c)))
    (hc : c ≠ 0)
    (hNoRace : ∀ ms, ClaudeProcessManager.effectiveTimer cmd = some ms → t ≤ ms) :
    ClaudeProcessManager.execute cmd none startTime trace
      = some (Except.ok
        { id := "exec_" ++ toString startTime
          output := String.join (ClaudeProcessManager.stdoutChunks trace)
          error := if String.join (ClaudeProcessManager.stderrChunks trace) = "" then none
            else some (String.join (ClaudeProcessManager.stderrChunks trace))
          exitCode := c
          duration := t
          timestamp := startTime + t }) := by
  have hjs : ClaudeProcessManager.jsOrZero (some c) = c := by
    simp [ClaudeProcessManager.jsOrZero, hc]
  cases hET : ClaudeProcessManager.effectiveTimer cmd with
  | none =>
    simp [ClaudeProcessManager.execute, ClaudeProcessManager.settleOf, hTerm, hET, hjs]
  | some ms =>
    have hle := hNoRace ms hET
    have hnlt : ¬ ms < t := by omega
    simp [ClaudeProcessManager.execute, ClaudeProcessManager.settleOf, hTerm, hET, hnlt, hjs]

/-- C6 witness: exit code 2 with empty stderr and no timer gives a success
whose error field is absent and whose exit code is 2. -/
theorem claim_C6_witness :
    ClaudeProcessManager.execute
      { command := "claude", args := [], cwd := none, env := [], timeout := none }
      none 100
      [ProcEvent.stdout 3 "out", ProcEvent.exited 9 (some 2)]
      = some (Except.ok
        { id := "exec_" ++ toString 100
          output := String.join (ClaudeProcessManager.stdoutChunks
            [ProcEvent.stdout 3 "out", ProcEvent.exited 9 (some 2)])
          error := if String.join (ClaudeProcessManager.stderrChunks
              [ProcEvent.stdout 3 "out", ProcEvent.exited 9 (some 2)]) = "" then none
            else some (String.join (ClaudeProcessManager.stderrChunks
              [ProcEvent.stdout 3 "out", ProcEvent.exited 9 (some 2)]))
          exitCode := 2
          duration := 9
          timestamp := 109 }) :=
  claim_C6_nonzero_exit_is_success
    { command := "claude", args := [], cwd := none, env := [], timeout := none }
    100
    [ProcEvent.stdout 3 "out", ProcEvent.exited 9 (some 2)]
    9 2 (by decide) (by decide) (by intro ms h; simp [ClaudeProcessManager.effectiveTimer] at h)

/-- C10: a process terminating with a null exit code (killed by an OS signal)
and no timeout win is reported by both execute and executeStream as a success
whose exit code is 0 — the expression code or-else 0 collapses the null code
to 0, indistinguishable from a normal zero exit. -/
theorem claim_C10_null_exit_code_reported_as_zero
    (cmd : ClaudeCommand) (startTime : Nat) (trace : List ProcEvent) (t : Nat)
    (hTerm : ClaudeProcessManager.terminalEvent trace = some (ProcEvent.exited t none))
    (hNoRace : ∀ ms, ClaudeProcessManager.effectiveTimer cmd = some ms → t ≤ ms) :
    ClaudeProcessManager.execute cmd none startTime trace
      = some (Except.ok
        { id := "exec_" ++ toString startTime
          output := String.join (ClaudeProcessManager.stdoutChunks trace)
          error := if String.join (ClaudeProcessManager.stderrChunks trace) = "" then none
            else some (String.join (ClaudeProcessManager.stderrChunks trace))
          exitCode := 0
          duration := t
          timestamp := startTime + t })
    ∧ (ClaudeProcessManager.executeStream cmd none startTime trace).2
      = some (Except.ok
        { id := "stream_" ++ toString startTime
          output := String.join (ClaudeProcessManager.stdoutChunks trace)
          error := if String.join (ClaudeProcessManager.stderrChunks trace) = "" then none
            else some (String.join (ClaudeProcessManager.stderrChunks trace))
          exitCode := 0
          duration := t
          timestamp := startTime + t }) := by
  cases hET : ClaudeProcessManager.effectiveTimer cmd with
  | none =>
    constructor
    · simp [ClaudeProcessManager.execute, ClaudeProcessManager.settleOf, hTerm, hET,
        ClaudeProcessManager.jsOrZero]
    · simp [ClaudeProcessManager.executeStream, ClaudeProcessManager.settleOf, hTerm, hET,
        ClaudeProcessManager.jsOrZero]
  | some ms =>
    have hle := hNoRace ms hET
    have hnlt : ¬ ms < t := by omega
    constructor
    · simp [ClaudeProcessManager.execute, ClaudeProcessManager.settleOf, hTerm, hET, hnlt,
        ClaudeProcessManager.jsOrZero]
    · simp [ClaudeProcessManager.executeStream, ClaudeProcessManager.settleOf, hTerm, hET, hnlt,
        ClaudeProcessManager.jsOrZero]

/-- C10 witness: a signal-killed process (null exit code) at 9 ms with a 30 ms
timer that never fires is reported as exit code 0 on both paths. -/
theorem claim_C10_witness :
    ClaudeProcessManager.execute
      { command := "claude", args := [], cwd := none, env := [], timeout := some 30 }
      none 7
      [ProcEvent.stdout 2 "x", ProcEvent.exited 9 none]
      = some (Except.ok
        { id := "exec_" ++ toString 7
          output := String.join (ClaudeProcessManager.stdoutChunks
            [ProcEvent.stdout 2 "x", ProcEvent.exited 9 none])
          error := if String.join (ClaudeProcessManager.stderrChunks
              [ProcEvent.stdout 2 "x", ProcEvent.exited 9 none]) = "" then none
            else some (String.join (ClaudeProcessManager.stderrChunks
              [ProcEvent.stdout 2 "x", ProcEvent.exited 9 none]))
          exitCode := 0
          duration := 9
          timestamp := 16 })
    ∧ (ClaudeProcessManager.executeStream
      { command := "claude", args := [], cwd := none, env := [], timeout := some 30 }
      none 7
      [ProcEvent.stdout 2 "x", ProcEvent.exited 9 none]).2
      = some (Except.ok
        { id := "stream_" ++ toString 7
          output := String.join (ClaudeProcessManager.stdoutChunks
            [ProcEvent.stdout 2 "x", ProcEvent.exited 9 none])
          error := if String.join (ClaudeProcessManager.stderrChunks
              [ProcEvent.stdout 2 "x", ProcEvent.exited 9 none]) = "" then none
            else some (String.join (ClaudeProcessManager.stderrChunks
              [ProcEvent.stdout 2 "x", ProcEvent.exited 9 none]))
          exitCode := 0
          duration := 9
          timestamp := 16 }) :=
  claim_C10_null_exit_code_reported_as_zero
    { command := "claude", args := [], cwd := none, env := [], timeout := some 30 }
    7
    [ProcEvent.stdout 2 "x", ProcEvent.exited 9 none]
    9 (by decide) (by intro ms h; simp [ClaudeProcessManager.effectiveTimer] at h; omega)

/-- C3 (amended): with at least one registered error subscriber, fail returns
normally, marks the stream finished, and hands every error subscriber the
elapsed duration and the number of chunks processed; with no error subscriber
the Node emitter throws instead (the stream is still marked finished). -/
theorem claim_C3_fail_notifies_when_subscribed
    (s : StreamState) (errMsg : String) (now : Nat)
    (hSub : 0 < s.errorListeners) :
    (ClaudeStreamProcessor.error s errMsg now).1 = { s with isComplete := true }
    ∧ (ClaudeStreamProcessor.error s errMsg now).2
      = Except.ok (List.replicate s.errorListeners
        { sessionId := s.sessionId
          errMsg := errMsg
          duration := now - s.startTime
          chunksProcessed := s.chunkSequence }) := by
  have hne : s.errorListeners ≠ 0 := Nat.pos_iff_ne_zero.mp hSub
  constructor
  · simp [ClaudeStreamProcessor.error, hne]
  · simp [ClaudeStreamProcessor.error, hne]

/-- C3 witness: one registered error subscriber receives the elapsed 10 ms and
the 2 processed chunks, and the call returns normally. -/
theorem claim_C3_witness :
    (ClaudeStreamProcessor.error
      { sessionId := "s", buffer := ["a", "b"], chunkSequence := 2, isComplete := false,
        startTime := 5, bufferSize := 1024, chunkListeners := 0, completeListeners := 0,
        errorListeners := 1 } "boom" 15).1
      = { sessionId := "s", buffer := ["a", "b"], chunkSequence := 2, isComplete := true,
          startTime := 5, bufferSize := 1024, chunkListeners := 0, completeListeners := 0,
          errorListeners := 1 }
    ∧ (ClaudeStreamProcessor.error
      { sessionId := "s", buffer := ["a", "b"], chunkSequence := 2, isComplete := false,
        startTime := 5, bufferSize := 1024, chunkListeners := 0, completeListeners := 0,
        errorListeners := 1 } "boom" 15).2
      = Except.ok (List.replicate 1
        { sessionId := "s", errMsg := "boom", duration := 10, chunksProcessed := 2 }) :=
  claim_C3_fail_notifies_when_subscribed
    { sessionId := "s", buffer := ["a", "b"], chunkSequence := 2, isComplete := false,
      startTime := 5, bufferSize := 1024, chunkListeners := 0, completeListeners := 0,
      errorListeners := 1 } "boom" 15 (by decide)

/-- C3 counterexample: with zero registered error subscribers, fail does not
return normally — emitting the error event with no listener makes the Node
emitter throw — refuting the claim that fail never throws for every subscriber
set including none. -/
theorem claim_C3_counterexample :
    throwsResult (ClaudeStreamProcessor.error
      { sessionId := "s", buffer := ["a"], chunkSequence := 1, isComplete := false,
        startTime := 0, bufferSize := 1024, chunkListeners := 0, completeListeners := 0,
        errorListeners := 0 } "boom" 10).2 = true
    ∧ (ClaudeStreamProcessor.error
      { sessionId := "s", buffer := ["a"], chunkSequence := 1, isComplete := false,
        startTime := 0, bufferSize := 1024, chunkListeners := 0, completeListeners := 0,
        errorListeners := 0 } "boom" 10).1.isComplete = true := by
  refine ⟨by decide, by decide⟩

namespace ClaudeStreamProcessor

/-- Chunks returned by a run of processChunk calls carry the consecutive
sequence numbers starting at the current one, never the completion flag, and
the state sequence counter advances by the number of calls. -/
theorem processAll_spec (items : List (String × Nat)) :
    ∀ s : StreamState,
      ((processAll s items).2.map (fun c => c.sequence)
        = List.range' s.chunkSequence items.length)
      ∧ (processAll s items).1.chunkSequence = s.chunkSequence + items.length
      ∧ (∀ c ∈ (processAll s items).2, c.isComplete = false) := by
  induction items with
  | nil => intro s; simp [processAll]
  | cons x rest ih =>
    intro s
    obtain ⟨d, t⟩ := x
    have h := ih (processChunk s d t).1
    have hseq : (processChunk s d t).1.chunkSequence = s.chunkSequence + 1 := rfl
    refine ⟨?_, ?_, ?_⟩
    · show ((processChunk s d t).2 :: (processAll (processChunk s d t).1 rest).2).map
          (fun c => c.sequence) = List.range' s.chunkSequence (rest.length + 1)
      rw [List.map_cons, List.range'_succ]
      simp only [List.cons.injEq]
      exact ⟨rfl, by rw [← hseq]; exact h.1⟩
    · show (processAll (processChunk s d t).1 rest).1.chunkSequence
          = s.chunkSequence + (rest.length + 1)
      rw [h.2.1, hseq]
      omega
    · intro c hc
      simp only [processAll, List.mem_cons] at hc
      rcases hc with hc | hc
      · rw [hc]; rfl
      · exact h.2.2 c hc

end ClaudeStreamProcessor

/-- C4: N consecutive pushChunk calls on a fresh aggregator return chunks
whose sequence numbers are exactly 0..N-1 in order, each with the completion
flag false; a subsequent complete yields a terminal chunk with empty payload
and the completion flag set, and marks the stream finished. -/
theorem claim_C4_sequence_numbers_zero_to_n
    (sid : String) (t0 bs cl col el tc : Nat) (items : List (String × Nat)) :
    ((ClaudeStreamProcessor.processAll
        (ClaudeStreamProcessor.create sid t0 bs cl col el) items).2.map
      (fun c => c.sequence)) = List.range items.length
    ∧ (∀ c ∈ (ClaudeStreamProcessor.processAll
        (ClaudeStreamProcessor.create sid t0 bs cl col el) items).2, c.isComplete = false)
    ∧ (ClaudeStreamProcessor.complete
        (ClaudeStreamProcessor.processAll
          (ClaudeStreamProcessor.create sid t0 bs cl col el) items).1 tc).2.data = ""
    ∧ (ClaudeStreamProcessor.complete
        (ClaudeStreamProcessor.processAll
          (ClaudeStreamProcessor.create sid t0 bs cl col el) items).1 tc).2.isComplete = true
    ∧ (ClaudeStreamProcessor.complete
        (ClaudeStreamProcessor.processAll
          (ClaudeStreamProcessor.create sid t0 bs cl col el) items).1 tc).1.isComplete
        = true := by
  have h := ClaudeStreamProcessor.processAll_spec items
    (ClaudeStreamProcessor.create sid t0 bs cl col el)
  refine ⟨?_, h.2.2, rfl, rfl, rfl⟩
  rw [h.1]
  have : (ClaudeStreamProcessor.create sid t0 bs cl col el).chunkSequence = 0 := rfl
  rw [this, List.range_eq_range']

namespace ClaudeStreamProcessor

/-- Splitting a run of processChunk calls at its last item. -/
theorem processAll_concat (items : List (String × Nat)) (d : String) (t : Nat) :
    ∀ s : StreamState,
      (processAll s (items ++ [(d, t)])).1 = (processChunk (processAll s items).1 d t).1 := by
  induction items with
  | nil => intro s; rfl
  | cons x rest ih =>
    intro s
    obtain ⟨e, u⟩ := x
    show (processAll (processChunk s e u).1 (rest ++ [(d, t)])).1 = _
    rw [ih]
    rfl

/-- ProcessChunk never touches the configured buffer size. -/
theorem processAll_bufferSize (items : List (String × Nat)) :
    ∀ s : StreamState, (processAll s items).1.bufferSize = s.bufferSize := by
  induction items with
  | nil => intro s; rfl
  | cons x rest ih =>
    intro s
    obtain ⟨d, t⟩ := x
    show (processAll (processChunk s d t).1 rest).1.bufferSize = s.bufferSize
    rw [ih]
    rfl

/-- One processChunk step on a buffer that is the suffix of the pushed history
keeps it the suffix of the extended history: the batch splice drops exactly
the surplus oldest entries. -/
theorem processChunk_buffer_drop (C : Nat) (hC : 1 ≤ C) (s : StreamState)
    (P : List String) (d : String) (t : Nat)
    (hsize : s.bufferSize = C) (hbuf : s.buffer = P.drop (P.length - C)) :
    (processChunk s d t).1.buffer = (P ++ [d]).drop (P.length + 1 - C) := by
  by_cases hn : P.length < C
  · have h0 : P.length - C = 0 := by omega
    rw [h0, List.drop_zero] at hbuf
    have hcond : ¬ s.bufferSize < (s.buffer ++ [d]).length := by
      rw [hsize, hbuf]
      simp only [List.length_append, List.length_cons, List.length_nil]
      omega
    simp only [processChunk, if_neg hcond]
    have h1 : P.length + 1 - C = 0 := by omega
    rw [hbuf, h1, List.drop_zero]
  · push_neg at hn
    have hblen : s.buffer.length = C := by
      rw [hbuf, List.length_drop]
      omega
    have hcond : s.bufferSize < (s.buffer ++ [d]).length := by
      rw [hsize]
      simp only [List.length_append, List.length_cons, List.length_nil, hblen]
      omega
    simp only [processChunk, if_pos hcond]
    have hdarg : (s.buffer ++ [d]).length - s.bufferSize = 1 := by
      rw [hsize]
      simp only [List.length_append, List.length_cons, List.length_nil, hblen]
      omega
    rw [hdarg, hbuf]
    rw [List.drop_append_of_le_length (by rw [List.length_drop]; omega)]
    rw [List.drop_drop]
    rw [List.drop_append_of_le_length (by omega)]
    congr 2
    omega

/-- After any run of pushes on a fresh aggregator with capacity C, the buffer
is exactly the most recent C payloads (all of them while they still fit). -/
theorem processAll_buffer (C : Nat) (hC : 1 ≤ C) (sid : String) (t0 cl col el : Nat)
    (items : List (String × Nat)) :
    (processAll (create sid t0 C cl col el) items).1.buffer
      = (items.map Prod.fst).drop (items.length - C) := by
  induction items using List.reverseRecOn with
  | nil => simp [processAll, create]
  | append_singleton l x ih =>
    obtain ⟨d, t⟩ := x
    rw [processAll_concat]
    rw [processChunk_buffer_drop C hC _ (l.map Prod.fst) d t
      ((processAll_bufferSize l (create sid t0 C cl col el)).trans rfl)
      (by rw [List.length_map]; exact ih)]
    simp only [List.map_append, List.map_cons, List.map_nil, List.length_map,
      List.length_append, List.length_cons, List.length_nil]

end ClaudeStreamProcessor

/-- C5: pushing C + k payloads through an aggregator with capacity C of at
least 1 leaves getBufferedData equal to the concatenation, in arrival order,
of exactly the last C payloads — the oldest k have been evicted. -/
theorem claim_C5_buffer_keeps_last_C_payloads
    (sid : String) (t0 cl col el C k : Nat) (items : List (String × Nat))
    (hC : 1 ≤ C) (_hk : 1 ≤ k) (hlen : items.length = C + k) :
    ClaudeStreamProcessor.getBufferedData
      (ClaudeStreamProcessor.processAll
        (ClaudeStreamProcessor.create sid t0 C cl col el) items).1
      = String.join ((items.map Prod.fst).drop k) := by
  simp only [ClaudeStreamProcessor.getBufferedData]
  rw [ClaudeStreamProcessor.processAll_buffer C hC]
  have hk2 : items.length - C = k := by omega
  rw [hk2]

/-- C5 witness: capacity 2 and three pushes keep only the last two payloads,
so the buffered data is the concatenation of those two. -/
theorem claim_C5_witness :
    ClaudeStreamProcessor.getBufferedData
      (ClaudeStreamProcessor.processAll
        (ClaudeStreamProcessor.create "s" 0 2 0 0 0)
        [("a", 1), ("b", 2), ("c", 3)]).1
      = String.join (([("a", 1), ("b", 2), ("c", 3)].map Prod.fst).drop 1) :=
  claim_C5_buffer_keeps_last_C_payloads "s" 0 0 0 0 2 1
    [("a", 1), ("b", 2), ("c", 3)] (by decide) (by decide) (by decide)

/-- Nullish coalescing yields none only when its left operand is none. -/
theorem nullish_none_left {α : Type} {a b : Option α} (h : nullish a b = none) : a = none := by
  cases a with
  | some x => simp [nullish] at h
  | none => rfl

/-- Nullish coalescing yields none only when its right operand is none. -/
theorem nullish_none_right {α : Type} {a b : Option α} (h : nullish a b = none) : b = none := by
  cases a with
  | some x => simp [nullish] at h
  | none => simpa [nullish] using h

/-- C7 (amended): whenever the timeout selected by the precedence chain
(option over command over session default, via nullish coalescing) is not the
value 0, the merged command handed to the process manager carries exactly that
timeout; in particular the 5000 and 1000 scenarios of the specification hold.
When the selected value is 0, the truthiness guard on the merge drops the
override and the command timeout field survives instead. -/
theorem claim_C7_session_timeout_precedence
    (cfg : ClaudeSessionConfig) (command : ClaudeCommand)
    (options : Option ClaudeExecutionOptions)
    (hnz : specEffectiveTimeout (options.bind (fun o => o.timeout))
      command.timeout cfg.timeout ≠ some 0) :
    (ClaudeSession.mergeCommand cfg command options).timeout
      = specEffectiveTimeout (options.bind (fun o => o.timeout))
        command.timeout cfg.timeout := by
  have hmt : (ClaudeSession.mergeCommand cfg command options).timeout
      = ClaudeSession.applyTruthyNat
        (nullish (options.bind (fun o => o.timeout)) (nullish command.timeout cfg.timeout))
        command.timeout := rfl
  rw [hmt]
  unfold specEffectiveTimeout at hnz ⊢
  cases hv : nullish (options.bind (fun o => o.timeout))
      (nullish command.timeout cfg.timeout) with
  | none =>
    have hcmd : command.timeout = none :=
      nullish_none_left (nullish_none_right hv)
    rw [hcmd]
    rfl
  | some v =>
    have hvnz : v ≠ 0 := fun h => hnz (by rw [hv, h])
    simp [ClaudeSession.applyTruthyNat, hvnz]

/-- C7 witness: a session with timeout 5000 and a command without one hands
5000 to the process manager; adding an option timeout of 1000 hands 1000. -/
theorem claim_C7_witness :
    (ClaudeSession.mergeCommand
      { id := "s1", workingDirectory := none, environment := [], timeout := some 5000,
        enableStreaming := none, streamBufferSize := none }
      { command := "claude", args := [], cwd := none, env := [], timeout := none }
      none).timeout = some 5000
    ∧ (ClaudeSession.mergeCommand
      { id := "s1", workingDirectory := none, environment := [], timeout := some 5000,
        enableStreaming := none, streamBufferSize := none }
      { command := "claude", args := [], cwd := none, env := [], timeout := none }
      (some { stream := none, sessionId := some "s1", timeout := some 1000 })).timeout
      = some 1000 :=
  ⟨(claim_C7_session_timeout_precedence
      { id := "s1", workingDirectory := none, environment := [], timeout := some 5000,
        enableStreaming := none, streamBufferSize := none }
      { command := "claude", args := [], cwd := none, env := [], timeout := none }
      none (by decide)).trans (by decide),
   (claim_C7_session_timeout_precedence
      { id := "s1", workingDirectory := none, environment := [], timeout := some 5000,
        enableStreaming := none, streamBufferSize := none }
      { command := "claude", args := [], cwd := none, env := [], timeout := none }
      (some { stream := none, sessionId := some "s1", timeout := some 1000 })
      (by decide)).trans (by decide)⟩

/-- C7 counterexample: with an option timeout of 0 present and a command
timeout of 500, the claimed precedence demands an effective timeout of 0, but
the truthiness guard in the source keeps the command timeout 500 instead. -/
theorem claim_C7_counterexample :
    (ClaudeSession.mergeCommand
      { id := "s1", workingDirectory := none, environment := [], timeout := some 5000,
        enableStreaming := none, streamBufferSize := none }
      { command := "claude", args := [], cwd := none, env := [], timeout := some 500 }
      (some { stream := none, sessionId := some "s1", timeout := some 0 })).timeout
      = some 500
    ∧ (ClaudeSession.mergeCommand
      { id := "s1", workingDirectory := none, environment := [], timeout := some 5000,
        enableStreaming := none, streamBufferSize := none }
      { command := "claude", args := [], cwd := none, env := [], timeout := some 500 }
      (some { stream := none, sessionId := some "s1", timeout := some 0 })).timeout
      ≠ specEffectiveTimeout (some 0) (some 500) (some 5000) := by
  refine ⟨by decide, by decide⟩

namespace ClaudeSession

/-- One session step adds one execution exactly when an execute or
executeStream call arrives while the session is active. -/
theorem step_executionCount (s : SessionState) (c : SessionCall) :
    (step s c).executionCount
      = s.executionCount + (match c with
        | .exec _ _ _ _ _ => if s.isActive then 1 else 0
        | .execStream _ _ _ _ _ => if s.isActive then 1 else 0
        | .destroy => 0) := by
  cases c with
  | exec cmd opts now dur r =>
    cases hA : s.isActive <;> simp [step, execute, hA]
  | execStream cmd opts now dur r =>
    cases hA : s.isActive <;> simp [step, executeStream, execute, hA]
  | destroy => simp [step, destroy]

/-- One session step adds the measured duration exactly when the call is
routed. -/
theorem step_totalDuration (s : SessionState) (c : SessionCall) :
    (step s c).totalDuration
      = s.totalDuration + (match c with
        | .exec _ _ _ dur _ => if s.isActive then dur else 0
        | .execStream _ _ _ dur _ => if s.isActive then dur else 0
        | .destroy => 0) := by
  cases c with
  | exec cmd opts now dur r =>
    cases hA : s.isActive <;> simp [step, execute, hA]
  | execStream cmd opts now dur r =>
    cases hA : s.isActive <;> simp [step, executeStream, execute, hA]
  | destroy => simp [step, destroy]

/-- Running any call sequence moves the counters by exactly the routed calls. -/
theorem run_counters (cs : List SessionCall) :
    ∀ s : SessionState,
      (run s cs).executionCount = s.executionCount + routedCount s cs
      ∧ (run s cs).totalDuration = s.totalDuration + routedDuration s cs := by
  induction cs with
  | nil => intro s; simp [run, routedCount, routedDuration]
  | cons c rest ih =>
    intro s
    have h := ih (step s c)
    constructor
    · show (run (step s c) rest).executionCount = _
      rw [h.1, step_executionCount]
      simp only [routedCount]
      rw [Nat.add_assoc]
    · show (run (step s c) rest).totalDuration = _
      rw [h.2, step_totalDuration]
      simp only [routedDuration]
      rw [Nat.add_assoc]

end ClaudeSession

/-- C9: over any call sequence the session execution counter grows by exactly
the number of calls routed while active and the cumulative duration by their
measured durations (success and failure alike, since the delegate result is an
arbitrary oracle here); a call against a destroyed session returns the
inactive failure with the state untouched, and a routed call bumps the
counter, adds its duration, stamps the execution time and returns the
delegate result unchanged. -/
theorem claim_C9_execution_count_matches_routed_calls
    (s : SessionState) (cs : List SessionCall) (cmd : ClaudeCommand)
    (opts : Option ClaudeExecutionOptions) (now dur : Nat)
    (r : Except ExecError ClaudeResponse) :
    (ClaudeSession.run s cs).executionCount
      = s.executionCount + ClaudeSession.routedCount s cs
    ∧ (ClaudeSession.run s cs).totalDuration
      = s.totalDuration + ClaudeSession.routedDuration s cs
    ∧ ClaudeSession.execute (ClaudeSession.destroy s) cmd opts now dur r
      = (ClaudeSession.destroy s, none, Except.error (ExecError.inactiveSession s.id))
    ∧ (ClaudeSession.execute { s with isActive := true } cmd opts now dur r).1.executionCount
      = s.executionCount + 1
    ∧ (ClaudeSession.execute { s with isActive := true } cmd opts now dur r).1.totalDuration
      = s.totalDuration + dur
    ∧ (ClaudeSession.execute { s with isActive := true } cmd opts now dur r).1.lastExecutionTime
      = some (now + dur)
    ∧ (ClaudeSession.execute { s with isActive := true } cmd opts now dur r).2.2 = r := by
  refine ⟨(ClaudeSession.run_counters cs s).1, (ClaudeSession.run_counters cs s).2,
    rfl, rfl, rfl, rfl, rfl⟩

namespace ClaudeClient

/-- Destroying a session can only remove registry entries, so distinct keys
stay distinct. -/
theorem nodup_destroySession (st : ClientState) (id : String)
    (h : (sessionKeys st).Nodup) : (sessionKeys (destroySession st id).1).Nodup := by
  unfold destroySession
  by_cases hc : id ∈ sessionKeys st
  · simp only [if_pos hc]
    exact List.Nodup.sublist (List.Sublist.map Prod.fst (List.filter_sublist _)) h
  · simp only [if_neg hc]
    exact h

/-- CreateSession registers a key only after the duplicate check refuted its
presence, so distinct keys stay distinct. -/
theorem nodup_createSession (st : ClientState) (cfg : ClaudeSessionConfig) (now : Nat)
    (h : (sessionKeys st).Nodup) : (sessionKeys (createSession st cfg now).1).Nodup := by
  unfold createSession
  by_cases h1 : st.config.maxConcurrentSessions ≤ st.sessions.length
  · simp only [if_pos h1]
    exact h
  · simp only [if_neg h1]
    by_cases h2 : cfg.id ∈ sessionKeys st
    · simp only [if_pos h2]
      exact h
    · simp only [if_neg h2]
      show ((st.sessions ++ [(cfg.id, _)]).map Prod.fst).Nodup
      rw [List.map_append]
      refine List.nodup_append.mpr ⟨h, List.nodup_singleton _, ?_⟩
      simp only [List.map_cons, List.map_nil, List.disjoint_singleton]
      exact h2

/-- Routing an execution through a session rewrites a registry value in place
and leaves the key list untouched. -/
theorem sessionKeys_executeRouted (st : ClientState) (sid : String)
    (cmd : ClaudeCommand) (opts : Option ClaudeExecutionOptions) (now dur : Nat)
    (r : Except ExecError ClaudeResponse) :
    sessionKeys (executeRouted st sid cmd opts now dur r).1 = sessionKeys st := by
  unfold executeRouted
  cases hf : st.sessions.find? (fun p => p.1 = sid) with
  | none => simp
  | some p =>
    simp only
    show ((st.sessions.map fun q => if q.1 = sid then (q.1, _) else q).map Prod.fst)
      = st.sessions.map Prod.fst
    rw [List.map_map]
    apply List.map_congr_left
    intro a _
    by_cases ha : a.1 = sid <;> simp [ha, Function.comp]

/-- Any run of best-effort destroys preserves key distinctness. -/
theorem nodup_foldl_destroy (ids : List String) :
    ∀ st : ClientState, (sessionKeys st).Nodup →
      (sessionKeys (ids.foldl (fun acc id => (destroySession acc id).1) st)).Nodup := by
  induction ids with
  | nil => intro st h; exact h
  | cons i rest ih =>
    intro st h
    exact ih (destroySession st i).1 (nodup_destroySession st i h)

/-- Every client operation preserves key distinctness of the registry. -/
theorem nodup_step (st : ClientState) (op : ClientOp)
    (h : (sessionKeys st).Nodup) : (sessionKeys (step st op)).Nodup := by
  cases op with
  | create cfg now => exact nodup_createSession st cfg now h
  | destroy id => exact nodup_destroySession st id h
  | execRouted sid cmd opts now dur r =>
    rw [show step st (ClientOp.execRouted sid cmd opts now dur r)
      = (executeRouted st sid cmd opts now dur r).1 from rfl]
    rw [sessionKeys_executeRouted]
    exact h
  | cleanupIdle now => exact nodup_foldl_destroy _ st h

/-- Key distinctness holds in every reachable client state. -/
theorem nodup_run (config : ClaudeClientConfig) (ops : List ClientOp) :
    (sessionKeys (run config ops)).Nodup := by
  have hgen : ∀ (l : List ClientOp) (st : ClientState), (sessionKeys st).Nodup →
      (sessionKeys (l.foldl step st)).Nodup := by
    intro l
    induction l with
    | nil => intro st h; exact h
    | cons op rest ih => intro st h; exact ih (step st op) (nodup_step st op h)
  exact hgen ops (init config) (by simp [sessionKeys, init])

end ClaudeClient

/-- C8 (amended): every reachable registry holds at most one session per
identifier; a createSession call whose identifier is already registered fails
and leaves the registry, hence the active-session list, unchanged — with
DuplicateSessionError whenever the registry is below the capacity ceiling,
while at capacity the capacity check fires first and the failure is
CapacityError instead. -/
theorem claim_C8_registry_unique_and_duplicate_rejected
    (config : ClaudeClientConfig) (ops : List ClientOp) :
    (ClaudeClient.sessionKeys (ClaudeClient.run config ops)).Nodup
    ∧ ∀ (cfg : ClaudeSessionConfig) (now : Nat),
        cfg.id ∈ ClaudeClient.sessionKeys (ClaudeClient.run config ops) →
          (ClaudeClient.createSession (ClaudeClient.run config ops) cfg now).1
            = ClaudeClient.run config ops
          ∧ ClaudeClient.getActiveSessions
              (ClaudeClient.createSession (ClaudeClient.run config ops) cfg now).1
            = ClaudeClient.getActiveSessions (ClaudeClient.run config ops)
          ∧ ((ClaudeClient.run config ops).sessions.length
              < (ClaudeClient.run config ops).config.maxConcurrentSessions →
              (ClaudeClient.createSession (ClaudeClient.run config ops) cfg now).2
                = Except.error (ClientError.duplicateSession cfg.id)) := by
  refine ⟨ClaudeClient.nodup_run config ops, ?_⟩
  intro cfg now hmem
  by_cases hcap : (ClaudeClient.run config ops).config.maxConcurrentSessions
      ≤ (ClaudeClient.run config ops).sessions.length
  · refine ⟨?_, ?_, ?_⟩
    · simp [ClaudeClient.createSession, hcap]
    · simp [ClaudeClient.createSession, hcap]
    · intro hlt
      omega
  · refine ⟨?_, ?_, ?_⟩
    · simp [ClaudeClient.createSession, hcap, hmem]
    · simp [ClaudeClient.createSession, hcap, hmem]
    · intro _
      simp [ClaudeClient.createSession, hcap, hmem]

/-- C8 witness: with the default ceiling of 10 and one live session s1, a
second create for s1 leaves the state unchanged and fails with the duplicate
error. -/
theorem claim_C8_witness :
    (ClaudeClient.createSession
      (ClaudeClient.run
        { defaultTimeout := 30000, maxConcurrentSessions := 10,
          defaultWorkingDirectory := "w", enableStreamingByDefault := false,
          streamBufferSize := 1024, sessionCleanupInterval := 60000,
          maxSessionIdleTime := 300000 }
        [ClientOp.create
          { id := "s1", workingDirectory := none, environment := [], timeout := none,
            enableStreaming := none, streamBufferSize := none } 0])
      { id := "s1", workingDirectory := none, environment := [], timeout := none,
        enableStreaming := none, streamBufferSize := none } 5).1
      = ClaudeClient.run
        { defaultTimeout := 30000, maxConcurrentSessions := 10,
          defaultWorkingDirectory := "w", enableStreamingByDefault := false,
          streamBufferSize := 1024, sessionCleanupInterval := 60000,
          maxSessionIdleTime := 300000 }
        [ClientOp.create
          { id := "s1", workingDirectory := none, environment := [], timeout := none,
            enableStreaming := none, streamBufferSize := none } 0]
    ∧ (ClaudeClient.createSession
      (ClaudeClient.run
        { defaultTimeout := 30000, maxConcurrentSessions := 10,
          defaultWorkingDirectory := "w", enableStreamingByDefault := false,
          streamBufferSize := 1024, sessionCleanupInterval := 60000,
          maxSessionIdleTime := 300000 }
        [ClientOp.create
          { id := "s1", workingDirectory := none, environment := [], timeout := none,
            enableStreaming := none, streamBufferSize := none } 0])
      { id := "s1", workingDirectory := none, environment := [], timeout := none,
        enableStreaming := none, streamBufferSize := none } 5).2
      = Except.error (ClientError.duplicateSession "s1") := by
  have h := claim_C8_registry_unique_and_duplicate_rejected
    { defaultTimeout := 30000, maxConcurrentSessions := 10,
      defaultWorkingDirectory := "w", enableStreamingByDefault := false,
      streamBufferSize := 1024, sessionCleanupInterval := 60000,
      maxSessionIdleTime := 300000 }
    [ClientOp.create
      { id := "s1", workingDirectory := none, environment := [], timeout := none,
        enableStreaming := none, streamBufferSize := none } 0]
  have h2 := h.2
    { id := "s1", workingDirectory := none, environment := [], timeout := none,
      enableStreaming := none, streamBufferSize := none } 5 (by decide)
  exact ⟨h2.1, h2.2.2 (by decide)⟩

/-- C8 counterexample: with a capacity ceiling of 1 and session s1 live, a
duplicate create for s1 fails with CapacityError, not DuplicateSessionError,
because the capacity check runs before the duplicate check (the registry is
still left unchanged). -/
theorem claim_C8_counterexample :
    "s1" ∈ ClaudeClient.sessionKeys
      (ClaudeClient.run
        { defaultTimeout := 30000, maxConcurrentSessions := 1,
          defaultWorkingDirectory := "w", enableStreamingByDefault := false,
          streamBufferSize := 1024, sessionCleanupInterval := 60000,
          maxSessionIdleTime := 300000 }
        [ClientOp.create
          { id := "s1", workingDirectory := none, environment := [], timeout := none,
            enableStreaming := none, streamBufferSize := none } 0])
    ∧ (ClaudeClient.createSession
      (ClaudeClient.run
        { defaultTimeout := 30000, maxConcurrentSessions := 1,
          defaultWorkingDirectory := "w", enableStreamingByDefault := false,
          streamBufferSize := 1024, sessionCleanupInterval := 60000,
          maxSessionIdleTime := 300000 }
        [ClientOp.create
          { id := "s1", workingDirectory := none, environment := [], timeout := none,
            enableStreaming := none, streamBufferSize := none } 0])
      { id := "s1", workingDirectory := none, environment := [], timeout := none,
        enableStreaming := none, streamBufferSize := none } 5).2
      = Except.error (ClientError.capacityError 1)
    ∧ (ClaudeClient.createSession
      (ClaudeClient.run
        { defaultTimeout := 30000, maxConcurrentSessions := 1,
          defaultWorkingDirectory := "w", enableStreamingByDefault := false,
          streamBufferSize := 1024, sessionCleanupInterval := 60000,
          maxSessionIdleTime := 300000 }
        [ClientOp.create
          { id := "s1", workingDirectory := none, environment := [], timeout := none,
            enableStreaming := none, streamBufferSize := none } 0])
      { id := "s1", workingDirectory := none, environment := [], timeout := none,
        enableStreaming := none, streamBufferSize := none } 5).2
      ≠ Except.error (ClientError.duplicateSession "s1")
    ∧ (ClaudeClient.createSession
      (ClaudeClient.run
        { defaultTimeout := 30000, maxConcurrentSessions := 1,
          defaultWorkingDirectory := "w", enableStreamingByDefault := false,
          streamBufferSize := 1024, sessionCleanupInterval := 60000,
          maxSessionIdleTime := 300000 }
        [ClientOp.create
          { id := "s1", workingDirectory := none, environment := [], timeout := none,
            enableStreaming := none, streamBufferSize := none } 0])
      { id := "s1", workingDirectory := none, environment := [], timeout := none,
        enableStreaming := none, streamBufferSize := none } 5).1
      = ClaudeClient.run
        { defaultTimeout := 30000, maxConcurrentSessions := 1,
          defaultWorkingDirectory := "w", enableStreamingByDefault := false,
          streamBufferSize := 1024, sessionCleanupInterval := 60000,
          maxSessionIdleTime := 300000 }
        [ClientOp.create
          { id := "s1", workingDirectory := none, environment := [], timeout := none,
            enableStreaming := none, streamBufferSize := none } 0] := by
  refine ⟨by decide, by decide, by decide, by decide⟩
